import Mathlib

/-!
Verification development for the Log Analyzer X detection & scoring pipeline.

Shallow embedding of the repository's core modules:
  * `src/analytics/anomaly.py`   (rolling z-score spike detection)
  * `src/analytics/security.py`  (brute force, credential stuffing, IP
    reputation, geo anomalies, security bundle)
  * `src/ml/risk_scoring.py`     (per-user composite risk fusion)
  * `src/alerts/alert_engine.py` (alert generation)

Embedding conventions:
  * A pandas DataFrame of events becomes a `Frame`: a list of `Event` rows
    together with a `Cols` record of booleans saying which columns are
    present.  A detector that reads a column it did not guard returns
    `Except.error` (the KeyError pandas would raise); guarded detectors
    return `Except.ok`.
  * Timestamps are natural numbers counted in minutes; `hour_bucket` is an
    opaque bucket key.  Identifier-like columns (user_id, ip_address,
    country, session_id) are modelled as naturals; pandas `groupby` sorts
    its keys ascending, which the embedding mirrors with the order on ℕ.
    `endpoint` and label/severity strings stay strings.
  * All numeric computation is exact over ℚ.  The source's z-score
    `z = (x − μ)/σ` with `σ = sqrt v` is represented by the pair
    `(a, s2) = (x − μ, σ²)`; every comparison the source performs on `z`
    is decided exactly by squaring (the algebra is spelled out at the
    comparator definitions).  Rounding uses round-half-to-even as numpy
    and pandas do.
  * `pandas.resample` with default `origin="start_day"` aligns bucket
    boundaries to multiples of the window length from midnight; with
    timestamps in minutes since a midnight epoch and a window dividing a
    day (the configured 10 minutes does), this is flooring to a multiple
    of the window, which is how `bfBuckets` computes bucket starts.
-/

/-- pandas `Series.clip lo hi`. -/
def clipQ (lo hi x : ℚ) : ℚ := max lo (min x hi)

/-- numpy/pandas rounding of a rational to an integer: round half to even. -/
def roundHalfEven (x : ℚ) : ℤ :=
  let f := ⌊x⌋
  let r := x - f
  if r < 1/2 then f else if 1/2 < r then f + 1 else if 2 ∣ f then f else f + 1

/-- pandas `Series.round d` / Python `round(x, d)`: round to `d` decimal
places, half to even. -/
def roundTo (d : ℕ) (x : ℚ) : ℚ := (roundHalfEven (x * 10 ^ d) : ℚ) / 10 ^ d

/-- Mean of a list of rationals (0 on the empty list; callers guard). -/
def meanQ (l : List ℚ) : ℚ := l.sum / l.length

/-- Sample variance with ddof = 1, as pandas `std` squares to.  Division by
zero (singleton list) yields 0 in ℚ; callers branch on the length first. -/
def sampleVar (l : List ℚ) : ℚ :=
  let m := meanQ l
  (l.map (fun x => (x - m) ^ 2)).sum / ((l.length : ℚ) - 1)

/-- pandas `Series.unique`: distinct values in order of first appearance. -/
def uniqueInOrder {α : Type} [BEq α] (l : List α) : List α :=
  l.foldl (fun acc x => if acc.contains x then acc else acc ++ [x]) []

/-- Insert `x` into a sorted list, before the first element it compares
`le` to — the stable position. -/
def sortedInsert {α : Type} (le : α → α → Bool) (x : α) : List α → List α
  | [] => [x]
  | y :: ys => if le x y then x :: y :: ys else y :: sortedInsert le x ys

/-- Stable insertion sort (structurally recursive, so concrete runs reduce
inside the kernel).  Elements comparing equal keep their input order, as in
the stable sorts of Python and pandas. -/
def stableSort {α : Type} (le : α → α → Bool) : List α → List α
  | [] => []
  | x :: xs => sortedInsert le x (stableSort le xs)

/-- pandas `Series.mode().iloc[0]`: the smallest value of maximal
multiplicity (`mode` returns the tied values sorted ascending). -/
def modeMin (l : List ℕ) : ℕ :=
  let u := stableSort (fun a b => a ≤ b) (l.dedup)
  (u.foldl (fun b v => if l.count v > b.1 then (l.count v, v) else b) (0, 0)).2

/-- pandas `Series.quantile q` with the default linear interpolation. -/
def quantileQ (q : ℚ) (l : List ℚ) : ℚ :=
  let s := stableSort (fun a b => a ≤ b) l
  if s.length = 0 then 0
  else
    let h := q * ((s.length : ℚ) - 1)
    let i := (⌊h⌋).toNat
    let g := h - ⌊h⌋
    s.getD i 0 + g * (s.getD (i + 1) 0 - s.getD i 0)

/-- The trailing rolling window of width `w` (min_periods = 1) ending at
index `i`, as pandas `Series.rolling(window := w, min_periods := 1)` sees it. -/
def rwindow (w : ℕ) (xs : List ℚ) (i : ℕ) : List ℚ := (xs.take (i + 1)).drop (i + 1 - w)

/-- Rolling mean at index `i` (`rolling(w, min_periods = 1).mean()`). -/
def rollingMean (w : ℕ) (xs : List ℚ) (i : ℕ) : ℚ := meanQ (rwindow w xs i)

/-- Square of the rolling standard deviation after the source's
`.std().fillna(1)` (a single observation has NaN std) and `.replace(0, 1)`
(zero variance).  The source's std is `sqrt` of this value; note the two
substituted cases return 1 = sqrt 1, so carrying the square is exact. -/
def stdSqOf (l : List ℚ) : ℚ :=
  if l.length ≤ 1 then 1 else if sampleVar l = 0 then 1 else sampleVar l

/-- Rolling std squared at index `i`. -/
def rollingStdSq (w : ℕ) (xs : List ℚ) (i : ℕ) : ℚ := stdSqOf (rwindow w xs i)

/-- Decide `a / sqrt s2 > t` exactly over ℚ, for `s2 > 0`.  With
`s := sqrt s2 > 0`: if `a > 0` and `t ≤ 0` the inequality holds; if
`a ≤ 0` and `t ≥ 0` it fails; if both are positive it is `a² > t²·s2`;
if both are negative it is `a² < t²·s2`. -/
def zGtB (a t s2 : ℚ) : Bool :=
  if 0 < a then (if 0 < t then decide (t ^ 2 * s2 < a ^ 2) else true)
  else (if t < 0 then decide (a ^ 2 < t ^ 2 * s2) else false)

/-- Decide `|a| / sqrt s2 > t` exactly over ℚ, for `s2 > 0`: trivial for
`t < 0`, and `a² > t²·s2` otherwise (both sides nonnegative). -/
def zAbsGtB (a t s2 : ℚ) : Bool :=
  if t < 0 then true else decide (t ^ 2 * s2 < a ^ 2)

/-- Decide `a / sqrt s2 < −t` exactly over ℚ, for `s2 > 0` (mirror image of
`zGtB`). -/
def zLtNegB (a t s2 : ℚ) : Bool :=
  if a < 0 then (if 0 ≤ t then decide (t ^ 2 * s2 < a ^ 2) else true)
  else (if t < 0 then decide (a ^ 2 < t ^ 2 * s2) else false)

/-- One normalized event row (`src` Event Table).  Columns that the claims
touch are included; values of columns marked absent in `Cols` are ignored. -/
structure Event where
  timestamp : ℕ
  user_id : ℕ
  ip_address : ℕ
  endpoint : String
  country : ℕ
  session_id : ℕ
  is_failure : Bool
  latency_ms : ℚ
  hour_bucket : ℕ
  deriving DecidableEq, Repr

/-- Which columns the Event Table actually has (`"c" in df.columns`). -/
structure Cols where
  timestamp : Bool
  user_id : Bool
  ip_address : Bool
  endpoint : Bool
  country : Bool
  session_id : Bool
  is_failure : Bool
  latency_ms : Bool
  hour_bucket : Bool
  deriving DecidableEq, Repr

/-- A DataFrame of events. -/
structure Frame where
  cols : Cols
  rows : List Event
  deriving DecidableEq, Repr

instance {e a : Type} [DecidableEq e] [DecidableEq a] : DecidableEq (Except e a) :=
  fun x y =>
    match x, y with
    | .error u, .error v => decidable_of_iff (u = v) (by simp)
    | .ok u, .ok v => decidable_of_iff (u = v) (by simp)
    | .error _, .ok _ => isFalse (by simp)
    | .ok _, .error _ => isFalse (by simp)

/-- `groupby` keys: the distinct values of `key`, ascending (pandas sorts
group keys by default). -/
def sortedKeys (key : Event → ℕ) (rows : List Event) : List ℕ :=
  (stableSort (fun a b => a ≤ b) (rows.map key)).dedup

/-- `ML_CONFIG` entries used by the anomaly engine
(`config/settings.py`: window 20, threshold 2.5). -/
structure MLConfig where
  zscore_window : ℕ
  zscore_threshold : ℚ
  deriving DecidableEq, Repr

def defaultML : MLConfig := ⟨20, 5/2⟩

/-- One row of the `time_series` frame built by `detect_spikes`
(`src/analytics/anomaly.py`).  `var_value` is the square of the source's
`std_value` column (NaN — `none` — for singleton buckets); `zdev`/`zvar`
represent the `zscore` column as `zscore = zdev / sqrt zvar`.  `severity`
is only assigned on the rows returned after the spike filter; it is ""
on the intermediate series. -/
structure SpikeRow where
  bucket : ℕ
  avg_value : ℚ
  var_value : Option ℚ
  count : ℕ
  zdev : ℚ
  zvar : ℚ
  is_spike : Bool
  spike_direction : String
  severity : String := ""
  deriving DecidableEq, Repr

/-- Latency values per hour bucket, buckets ascending. -/
def bucketLatencies (df : Frame) : List (ℕ × List ℚ) :=
  (sortedKeys (·.hour_bucket) df.rows).map fun b =>
    (b, (df.rows.filter (fun e => e.hour_bucket = b)).map (·.latency_ms))

/-- Row `i` of the `time_series` frame of `detect_spikes`: per-bucket
aggregates and the rolling z-score columns over the bucket-average series. -/
def spikeRowAt (cfg : MLConfig) (stats : List (ℕ × List ℚ)) (i : ℕ) : SpikeRow :=
  let avgs := stats.map (fun p => meanQ p.2)
  let t := cfg.zscore_threshold
  let p := stats.getD i (0, [])
  let a := avgs.getD i 0 - rollingMean cfg.zscore_window avgs i
  let s2 := rollingStdSq cfg.zscore_window avgs i
  { bucket := p.1
    avg_value := meanQ p.2
    var_value := if p.2.length ≤ 1 then none else some (sampleVar p.2)
    count := p.2.length
    zdev := a
    zvar := s2
    is_spike := zAbsGtB a t s2
    spike_direction :=
      if zGtB a t s2 then "HIGH" else if zLtNegB a t s2 then "LOW" else "NORMAL" }

/-- The `time_series` frame of `detect_spikes` before the spike filter. -/
def spikeTimeSeries (cfg : MLConfig) (df : Frame) : List SpikeRow :=
  (List.range (bucketLatencies df).length).map (spikeRowAt cfg (bucketLatencies df))

/-- `detect_spikes` (`src/analytics/anomaly.py`), at its only call shape in
the repository: metric column `latency_ms`, time column `hour_bucket`.
Returns the rows of the time series flagged as spikes, with severity. -/
def detect_spikes (cfg : MLConfig) (df : Frame) : List SpikeRow :=
  if ¬df.cols.latency_ms ∨ ¬df.cols.hour_bucket then []
  else
    ((spikeTimeSeries cfg df).filter (·.is_spike)).map fun r =>
      { r with severity :=
          if zAbsGtB r.zdev (cfg.zscore_threshold * (3/2)) r.zvar then "CRITICAL"
          else "WARNING" }

/-- One row of the frame returned by `detect_error_rate_spikes`. -/
structure ErrRow where
  bucket : ℕ
  total : ℕ
  errors : ℕ
  error_rate : ℚ
  zdev : ℚ
  zvar : ℚ
  is_spike : Bool
  deriving DecidableEq, Repr

/-- `detect_error_rate_spikes` (`src/analytics/anomaly.py`): per-bucket
error rate (count of failures / bucket size × 100, rounded to 2 decimals),
rolling z-score, and the source's one-sided spike flag
`zscore > ML_CONFIG["zscore_threshold"]`. -/
def detect_error_rate_spikes (cfg : MLConfig) (df : Frame) : List ErrRow :=
  if ¬df.cols.is_failure ∨ ¬df.cols.hour_bucket then []
  else
    let stats := (sortedKeys (·.hour_bucket) df.rows).map fun b =>
      let g := df.rows.filter (fun e => e.hour_bucket = b)
      (b, g.length, (g.filter (·.is_failure)).length)
    let rates := stats.map fun s => roundTo 2 ((s.2.2 : ℚ) / (s.2.1 : ℚ) * 100)
    (List.range stats.length).map fun i =>
      let s := stats.getD i (0, 0, 0)
      let a := rates.getD i 0 - rollingMean cfg.zscore_window rates i
      let s2 := rollingStdSq cfg.zscore_window rates i
      { bucket := s.1
        total := s.2.1
        errors := s.2.2
        error_rate := rates.getD i 0
        zdev := a
        zvar := s2
        is_spike := zGtB a cfg.zscore_threshold s2 }

/-- `SECURITY` thresholds (`config/settings.py`). -/
structure SecConfig where
  brute_force_threshold : ℕ
  brute_force_window_min : ℕ
  credential_stuffing_threshold : ℕ
  credential_stuffing_window_min : ℕ
  high_risk_score : ℚ
  deriving DecidableEq, Repr

def defaultSec : SecConfig := ⟨5, 10, 3, 5, 70⟩

/-- The fixed authentication-path set of `detect_brute_force`. -/
def loginEndpoints : List String := ["/login", "/auth", "/signin", "/authenticate", "/token"]

/-- Python `str.lower()` on the endpoint strings, character by character
(`String.toLower` computes the same string but is opaque to kernel
reduction, so the character-map form is used). -/
def lowerAscii (s : String) : String := String.mk (s.data.map Char.toLower)

/-- The auth-failure filter of `detect_brute_force`: failures, restricted to
login endpoints (case-insensitively) when the endpoint column exists. -/
def bfFailures (df : Frame) : List Event :=
  df.rows.filter fun e =>
    e.is_failure && (!df.cols.endpoint || loginEndpoints.contains (lowerAscii e.endpoint))

/-- The resample bucket starts for one IP's sorted event list: multiples of
the window length from the first event's bucket to the last event's bucket
(pandas `resample` with its default clock alignment; see the header note). -/
def bfBuckets (w : ℕ) (g : List Event) : List ℕ :=
  match g with
  | [] => []
  | e :: _ =>
    let t0 := e.timestamp / w * w
    let t1 := (g.getLastD e).timestamp / w * w
    List.range' t0 ((t1 - t0) / w + 1) w

/-- The window-scoped subset `group.loc[ts : ts + window]` used for the
targeted-user list and the country mode: a label slice on the timestamp
index, which pandas makes inclusive at BOTH ends. -/
def bfWindowData (w : ℕ) (g : List Event) (ts : ℕ) : List Event :=
  g.filter fun e => ts ≤ e.timestamp && e.timestamp ≤ ts + w

/-- The targeted-user list of one detection: distinct user ids of the
window subset in order of first appearance, truncated to 5 (empty when the
user_id column is absent). -/
def bfTargets (cols : Cols) (w : ℕ) (g : List Event) (ts : ℕ) : List ℕ :=
  if cols.user_id then (uniqueInOrder ((bfWindowData w g ts).map (·.user_id))).take 5 else []

/-- The country of one detection: mode of the window subset when the
country column exists and the subset is nonempty, else "Unknown" (`none`). -/
def bfCountry (cols : Cols) (w : ℕ) (g : List Event) (ts : ℕ) : Option ℕ :=
  if cols.country ∧ bfWindowData w g ts ≠ [] then
    some (modeMin ((bfWindowData w g ts).map (·.country)))
  else none

/-- One brute-force Detection Record. -/
structure BFRow where
  ip_address : ℕ
  timestamp : ℕ
  attempt_count : ℕ
  targeted_users : List ℕ
  severity : String
  country : Option ℕ
  mitre_technique : String
  mitre_name : String
  deriving DecidableEq, Repr

/-- One IP's filtered failure events, sorted by timestamp (stable). -/
def bfGroup (failures : List Event) (ip : ℕ) : List Event :=
  stableSort (fun a b => a.timestamp ≤ b.timestamp) (failures.filter (fun e => e.ip_address = ip))

/-- The bucket count of `resample(window).size()` at bucket start `ts`:
events of the half-open bin `[ts, ts + w)`. -/
def bfBucketCount (w : ℕ) (g : List Event) (ts : ℕ) : ℕ :=
  (g.filter (fun e => ts ≤ e.timestamp && e.timestamp < ts + w)).length

/-- The Detection Record emitted for a breaching bucket. -/
def bfRecordAt (cfg : SecConfig) (cols : Cols) (g : List Event) (ip ts : ℕ) : BFRow :=
  let w := cfg.brute_force_window_min
  { ip_address := ip
    timestamp := ts
    attempt_count := bfBucketCount w g ts
    targeted_users := bfTargets cols w g ts
    severity :=
      if bfBucketCount w g ts ≥ cfg.brute_force_threshold * 2 then "CRITICAL" else "WARNING"
    country := bfCountry cols w g ts
    mitre_technique := "T1110"
    mitre_name := "Brute Force" }

/-- `detect_brute_force` (`src/analytics/security.py`).  Guards the
timestamp and ip_address columns (empty result when absent); reading the
unguarded `is_failure` column raises when it is absent. -/
def detect_brute_force (cfg : SecConfig) (df : Frame) : Except String (List BFRow) :=
  if ¬df.cols.timestamp ∨ ¬df.cols.ip_address then .ok []
  else if ¬df.cols.is_failure then .error "KeyError: is_failure"
  else
    let failures := bfFailures df
    if failures = [] then .ok []
    else
      let w := cfg.brute_force_window_min
      .ok <| (sortedKeys (·.ip_address) failures).flatMap fun ip =>
        let g := bfGroup failures ip
        (bfBuckets w g).filterMap fun ts =>
          if bfBucketCount w g ts < cfg.brute_force_threshold then none
          else some (bfRecordAt cfg df.cols g ip ts)

/-- One credential-stuffing Detection Record. -/
structure CSRow where
  ip_address : ℕ
  timestamp : ℕ
  unique_users_targeted : ℕ
  total_attempts : ℕ
  severity : String
  country : Option ℕ
  mitre_technique : String
  mitre_name : String
  deriving DecidableEq, Repr

def dummyEvent : Event := ⟨0, 0, 0, "", 0, 0, false, 0, 0⟩

/-- The per-IP body of `detect_credential_stuffing`: evaluate start points
`0, stride, 2·stride, …` (stride `max 1 (n / 20)`) over the IP's sorted
failures, and emit a record at the FIRST start point whose closed window
`[ts, ts + w]` contains at least `threshold` distinct user ids (the
source's `break`). -/
def csDetectIp (cfg : SecConfig) (cols : Cols) (g : List Event) (ip : ℕ) : Option CSRow :=
  let n := g.length
  let stride := max 1 (n / 20)
  let w := cfg.credential_stuffing_window_min
  (List.range' 0 ((n + stride - 1) / stride) stride).findSome? fun i =>
    let ts := (g.getD i dummyEvent).timestamp
    let wd := g.filter fun e => ts ≤ e.timestamp && e.timestamp ≤ ts + w
    let uu := ((wd.map (·.user_id)).dedup).length
    if uu ≥ cfg.credential_stuffing_threshold then
      some
        { ip_address := ip
          timestamp := ts
          unique_users_targeted := uu
          total_attempts := wd.length
          severity := "CRITICAL"
          country :=
            if cols.country ∧ wd ≠ [] then some (modeMin (wd.map (·.country))) else none
          mitre_technique := "T1110.004"
          mitre_name := "Credential Stuffing" }
    else none

/-- `detect_credential_stuffing` (`src/analytics/security.py`).  Guards
timestamp, ip_address and user_id; the unguarded `is_failure` read raises
when that column is absent. -/
def detect_credential_stuffing (cfg : SecConfig) (df : Frame) : Except String (List CSRow) :=
  if ¬df.cols.timestamp ∨ ¬df.cols.ip_address ∨ ¬df.cols.user_id then .ok []
  else if ¬df.cols.is_failure then .error "KeyError: is_failure"
  else
    let fails := df.rows.filter (·.is_failure)
    if fails = [] then .ok []
    else
      .ok <| (sortedKeys (·.ip_address) fails).filterMap fun ip =>
        let g := stableSort (fun a b => a.timestamp ≤ b.timestamp)
          (fails.filter (fun e => e.ip_address = ip))
        csDetectIp cfg df.cols g ip

/-- pandas `pd.cut` with bins `[-1, 25, 50, 70, 100]` (IP reputation tiers,
`calculate_ip_reputation`). -/
def tier70 (s : ℚ) : String :=
  if s ≤ -1 then "nan" else if s ≤ 25 then "Low" else if s ≤ 50 then "Medium"
  else if s ≤ 70 then "High" else if s ≤ 100 then "Critical" else "nan"

/-- pandas `pd.cut` with bins `[-1, 25, 50, 75, 100]` (risk-scoring tiers,
`calculate_user_risk_scores` and `calculate_ip_risk_scores`). -/
def tier75 (s : ℚ) : String :=
  if s ≤ -1 then "nan" else if s ≤ 25 then "Low" else if s ≤ 50 then "Medium"
  else if s ≤ 75 then "High" else if s ≤ 100 then "Critical" else "nan"

/-- One row of the IP reputation table (the columns the source selects). -/
structure IPRepRow where
  ip_address : ℕ
  total_requests : ℕ
  failure_count : ℕ
  failure_ratio : ℚ
  unique_users : ℕ
  reputation_score : ℚ
  risk_tier : String
  deriving DecidableEq, Repr

/-- `calculate_ip_reputation` (`src/analytics/security.py`): three weighted
components (failure ratio 0.50, volume-vs-p95 0.20, user spread 0.30),
clipped, rounded to 1 decimal, tiered with `tier70`, sorted descending by
score.  Guards only ip_address; the `is_failure` aggregation raises when
that column is absent. -/
def calculate_ip_reputation (df : Frame) : Except String (List IPRepRow) :=
  if ¬df.cols.ip_address then .ok []
  else if ¬df.cols.is_failure then .error "KeyError: is_failure"
  else
    let keys := sortedKeys (·.ip_address) df.rows
    let stats := keys.map fun ip =>
      let g := df.rows.filter (fun e => e.ip_address = ip)
      let uu := if df.cols.user_id then ((g.map (·.user_id)).dedup).length else g.length
      (ip, g.length, (g.filter (·.is_failure)).length, uu)
    let p95 := quantileQ (95/100) (stats.map (fun s => (s.2.1 : ℚ)))
    .ok <| (stats.map fun s =>
      let total : ℕ := s.2.1
      let fails : ℕ := s.2.2.1
      let uu : ℕ := s.2.2.2
      let fr : ℚ := (fails : ℚ) / (total : ℚ)
      let sF := clipQ 0 100 (fr * 100)
      let sV : ℚ := if (total : ℚ) > p95 then 80 else (total : ℚ) / p95 * 40
      let sU : ℚ := if uu > 5 then clipQ 0 100 (60 + ((uu : ℚ) - 5) * 4) else 0
      let rep := roundTo 1 (clipQ 0 100 (sF * (1/2) + sV * (1/5) + sU * (3/10)))
      { ip_address := s.1
        total_requests := total
        failure_count := fails
        failure_ratio := fr
        unique_users := uu
        reputation_score := rep
        risk_tier := tier70 rep } : List IPRepRow) |>
      stableSort (fun a b => b.reputation_score ≤ a.reputation_score)

/-- One geo-anomaly record. -/
structure GeoRow where
  user_id : ℕ
  countries : List ℕ
  num_countries : ℕ
  primary_country : Option ℕ
  severity : String
  anomaly_type : String
  deriving DecidableEq, Repr

/-- `detect_geo_anomalies` (`src/analytics/security.py`): users seen from
at least 3 distinct countries; CRITICAL at 5. -/
def detect_geo_anomalies (df : Frame) : List GeoRow :=
  if ¬df.cols.user_id ∨ ¬df.cols.country then []
  else
    ((sortedKeys (·.user_id) df.rows).map fun u =>
      let cs := (df.rows.filter (fun e => e.user_id = u)).map (·.country)
      { user_id := u
        countries := uniqueInOrder cs
        num_countries := cs.dedup.length
        primary_country := if cs = [] then none else some (modeMin cs)
        severity := if cs.dedup.length ≥ 5 then "CRITICAL" else "WARNING"
        anomaly_type := "geo_deviation" } : List GeoRow).filter
      (fun r => r.num_countries ≥ 3)

/-- One row of the MITRE mapping table. -/
structure MitreRow where
  technique_id : String
  technique_name : String
  mitre_tactic : String
  detection_source : String
  severity : String
  ip_address : Option ℕ
  deriving DecidableEq, Repr

/-- `map_mitre_techniques` over the (brute_force, credential_stuffing)
detection list built in `run_security_analysis`. -/
def map_mitre_techniques (bf : List BFRow) (cs : List CSRow) : List MitreRow :=
  bf.map (fun r =>
    { technique_id := "T1110", technique_name := "Brute Force",
      mitre_tactic := "Credential Access", detection_source := "brute_force",
      severity := r.severity, ip_address := some r.ip_address }) ++
  cs.map (fun r =>
    { technique_id := "T1110.004", technique_name := "Credential Stuffing",
      mitre_tactic := "Credential Access", detection_source := "credential_stuffing",
      severity := r.severity, ip_address := some r.ip_address })

/-- The security results bundle of `run_security_analysis`. -/
structure SecResults where
  brute_force : List BFRow
  credential_stuffing : List CSRow
  ip_reputation : List IPRepRow
  geo_anomalies : List GeoRow
  mitre_mapping : List MitreRow
  risk_index : ℕ
  total_threats : ℕ
  high_risk_ips : ℕ
  failure_rate : ℚ
  deriving DecidableEq, Repr

/-- `run_security_analysis` (`src/analytics/security.py`): runs the four
detectors and computes the capped risk index and overall failure rate.  An
error raised by a detector propagates out, as the uncaught Python exception
would. -/
def run_security_analysis (cfg : SecConfig) (df : Frame) : Except String SecResults :=
  match detect_brute_force cfg df with
  | .error e => .error e
  | .ok bf =>
    match detect_credential_stuffing cfg df with
    | .error e => .error e
    | .ok cs =>
      match calculate_ip_reputation df with
      | .error e => .error e
      | .ok ipRep =>
        let geo := detect_geo_anomalies df
        let hr := (ipRep.filter (fun r => r.reputation_score ≥ cfg.high_risk_score)).length
        let risk0 := min (bf.length * 5) 30 + min (cs.length * 10) 30 +
          min (geo.length * 3) 20 + (if ipRep ≠ [] then min (hr * 2) 20 else 0)
        let total := df.rows.length
        let fc := if df.cols.is_failure then (df.rows.filter (·.is_failure)).length else 0
        .ok
          { brute_force := bf
            credential_stuffing := cs
            ip_reputation := ipRep
            geo_anomalies := geo
            mitre_mapping := map_mitre_techniques bf cs
            risk_index := min risk0 100
            total_threats := bf.length + cs.length
            high_risk_ips := if ipRep ≠ [] then hr else 0
            failure_rate := roundTo 2 (if total > 0 then (fc : ℚ) / (total : ℚ) * 100 else 0) }

/-- One row of the externally supplied isolation-forest results
(`ml_results["isolation_forest"]["results"]`). -/
structure IFRow where
  session_id : ℕ
  anomaly_score : ℚ
  deriving DecidableEq, Repr

/-- The isolation-forest results frame; `has_anomaly_score` models the
source's `"anomaly_score" in if_with_user.columns` check. -/
structure IFFrame where
  has_anomaly_score : Bool
  rows : List IFRow
  deriving DecidableEq, Repr

/-- One row of the externally supplied k-means results. -/
structure KMRow where
  user_id : ℕ
  cluster_label : String
  deriving DecidableEq, Repr

/-- The k-means results frame; `has_cluster_label` models the source's
`"cluster_label" in kmeans_results.columns` check. -/
structure KMFrame where
  has_cluster_label : Bool
  rows : List KMRow
  deriving DecidableEq, Repr

/-- The `ml_results` dictionary handed to the risk fusion; each key may be
absent. -/
structure MLResults where
  isolation_forest : Option IFFrame
  kmeans : Option KMFrame
  deriving DecidableEq, Repr

/-- One per-user Risk Record: the columns of the `users` frame built by
`calculate_user_risk_scores`. -/
structure URow where
  user_id : ℕ
  total_requests : ℕ
  failure_rate : ℚ
  unique_ips : ℕ
  unique_countries : ℕ
  avg_latency : ℚ
  score_failure : ℚ := 0
  score_anomaly : ℚ := 0
  score_geo : ℚ := 0
  score_cluster : ℚ := 0
  score_volume : ℚ := 0
  score_ip_rep : ℚ := 0
  risk_score : ℚ := 0
  risk_tier : String := ""
  deriving DecidableEq, Repr

/-- The base per-user aggregation of `calculate_user_risk_scores` (each
conditional aggregate defaults as in the source when the column is absent). -/
def baseUsers (df : Frame) : List URow :=
  (sortedKeys (·.user_id) df.rows).map fun u =>
    let g := df.rows.filter (fun e => e.user_id = u)
    { user_id := u
      total_requests := g.length
      failure_rate :=
        if df.cols.is_failure then ((g.filter (·.is_failure)).length : ℚ) / (g.length : ℚ) else 0
      unique_ips := if df.cols.ip_address then ((g.map (·.ip_address)).dedup).length else 1
      unique_countries := if df.cols.country then ((g.map (·.country)).dedup).length else 1
      avg_latency := if df.cols.latency_ms then meanQ (g.map (·.latency_ms)) else 0 }

/-- The isolation-forest signal actually used by the anomaly component:
`none` when the ml_results dict is falsy, the key is absent, the results
frame is empty, the Event Table has no session_id column, or the joined
frame has no anomaly_score column — exactly the source's guard chain. -/
def activeIF (df : Frame) (ml : Option MLResults) : Option IFFrame :=
  match ml with
  | none => none
  | some m =>
    match m.isolation_forest with
    | none => none
    | some f =>
      if f.rows = [] ∨ ¬df.cols.session_id ∨ ¬f.has_anomaly_score then none else some f

/-- The session→user join of the anomaly component: distinct
(session_id, user_id) pairs of the Event Table, left-merged onto the
isolation-forest rows, grouped by user (rows that joined no user are
dropped by the groupby), then averaged.  `none` when the join yields no
anomaly score for this user. -/
def user_avg_anomaly (df : Frame) (f : IFFrame) (uid : ℕ) : Option ℚ :=
  let pairs := uniqueInOrder (df.rows.map (fun e => (e.session_id, e.user_id)))
  let joined := f.rows.flatMap fun r =>
    (pairs.filter (fun p => p.1 = r.session_id)).map (fun p => (p.2, r.anomaly_score))
  let mine := (joined.filter (fun p => p.1 = uid)).map (·.2)
  if mine = [] then none else some (meanQ mine)

/-- Component 2 of the fusion: the averaged anomaly score is `fillna(0)`-ed
and transformed by `(0 − avg) × 50 + 50`, clipped to [0, 100]. -/
def anomalyStage (df : Frame) (ml : Option MLResults) (users : List URow) : List URow :=
  match activeIF df ml with
  | none => users
  | some f =>
    users.map fun u =>
      { u with score_anomaly :=
          clipQ 0 100 ((0 - ((user_avg_anomaly df f u.user_id).getD 0)) * 50 + 50) }

/-- Component 3: stepped geo-deviation score. -/
def geoStage (users : List URow) : List URow :=
  users.map fun u =>
    { u with score_geo :=
        if u.unique_countries ≥ 5 then 100
        else if u.unique_countries ≥ 3 then 60
        else if u.unique_countries ≥ 2 then 30 else 0 }

/-- Does the character list start with the pattern? -/
def startsWithChars : List Char → List Char → Bool
  | _, [] => true
  | [], _ :: _ => false
  | c :: cs, p :: ps => (c = p) && startsWithChars cs ps

/-- Substring containment over character lists (structurally recursive). -/
def hasSubChars : List Char → List Char → Bool
  | [], pat => pat.isEmpty
  | c :: cs, pat => startsWithChars (c :: cs) pat || hasSubChars cs pat

/-- Python `sub in s` on strings. -/
def strContainsSub (s sub : String) : Bool := hasSubChars s.data sub.data

/-- Python `"Suspicious" in str(x)` / `"Power" in str(x)` scoring of a
cluster label. -/
def labelScore (s : String) : ℚ :=
  if strContainsSub s "Suspicious" then 80
  else if strContainsSub s "Power" then 20 else 0

/-- The k-means signal actually used by the cluster component: `none` when
the ml_results dict is falsy, the key is absent, the results frame is
empty, or it has no cluster_label column — the source's guard chain. -/
def activeKM (ml : Option MLResults) : Option KMFrame :=
  match ml with
  | none => none
  | some m =>
    match m.kmeans with
    | none => none
    | some k => if k.rows = [] ∨ ¬k.has_cluster_label then none else some k

/-- Component 4: left-merge of the per-user cluster scores (`suffixes`
then `fillna` with the existing 0 default); a user matching several
k-means rows is duplicated by the merge, as in pandas. -/
def clusterStage (ml : Option MLResults) (users : List URow) : List URow :=
  match activeKM ml with
  | none => users
  | some k =>
    users.flatMap fun u =>
      let ms := k.rows.filter (fun r => r.user_id = u.user_id)
      if ms = [] then [u]
      else ms.map fun r => { u with score_cluster := labelScore r.cluster_label }

/-- Component 5: stepped request-volume score against the p99/p95 of the
per-user request counts. -/
def volumeStage (users : List URow) : List URow :=
  let counts := users.map (fun u => (u.total_requests : ℚ))
  let q99 := quantileQ (99/100) counts
  let q95 := quantileQ (95/100) counts
  users.map fun u =>
    { u with score_volume :=
        if (u.total_requests : ℚ) > q99 then 70
        else if (u.total_requests : ℚ) > q95 then 40 else 0 }

/-- Component 6: reputation score of the user's most frequent IP, looked
up in the security results' IP reputation table, 0 when missing.  The
source's `df.groupby("user_id")["ip_address"]` raises when the Event Table
has no ip_address column. -/
def ipRepStage (df : Frame) (sec : Option SecResults) (users : List URow) :
    Except String (List URow) :=
  match sec with
  | none => .ok users
  | some s =>
    if s.ip_reputation = [] then .ok users
    else if ¬df.cols.ip_address then .error "KeyError: ip_address"
    else
      .ok <| users.map fun u =>
        let mine := (df.rows.filter (fun e => e.user_id = u.user_id)).map (·.ip_address)
        let primary : Option ℕ := if mine = [] then none else some (modeMin mine)
        let rep := primary.bind fun ip =>
          ((s.ip_reputation.filter (fun r => r.ip_address = ip)).map
            (·.reputation_score)).head?
        { u with score_ip_rep := rep.getD 0 }

/-- The composite: fixed weights 0.25/0.25/0.15/0.15/0.10/0.10, clipped to
[0, 100], rounded to 1 decimal, tiered with bins `[-1, 25, 50, 75, 100]`. -/
def finalizeRisk (u : URow) : URow :=
  let s := roundTo 1 (clipQ 0 100
    (u.score_failure * (1/4) + u.score_anomaly * (1/4) + u.score_geo * (3/20) +
     u.score_cluster * (3/20) + u.score_volume * (1/10) + u.score_ip_rep * (1/10)))
  { u with risk_score := s, risk_tier := tier75 s }

/-- `calculate_user_risk_scores` (`src/ml/risk_scoring.py`): per-user
multi-signal risk fusion, sorted descending by composite score. -/
def calculate_user_risk_scores (df : Frame) (sec : Option SecResults)
    (ml : Option MLResults) : Except String (List URow) :=
  if ¬df.cols.user_id then .ok []
  else
    let u1 := (baseUsers df).map fun u =>
      { u with score_failure := clipQ 0 100 (u.failure_rate * 100) }
    let u5 := volumeStage (clusterStage ml (geoStage (anomalyStage df ml u1)))
    match ipRepStage df sec u5 with
    | .error e => .error e
    | .ok u6 => .ok (stableSort (fun a b => b.risk_score ≤ a.risk_score) (u6.map finalizeRisk))

/-- One SLA-breach row consumed by the alert engine (the fields the alert
templates read; the float-formatted detail fields are not modelled). -/
structure SLARow where
  service : String
  breach_details : String
  severity : String
  deriving DecidableEq, Repr

/-- One bottleneck entry consumed by the alert engine. -/
structure BNRow where
  service : String
  detail : String
  severity : String
  btype : String
  deriving DecidableEq, Repr

/-- The performance results consumed by `generate_alerts`. -/
structure PerfResults where
  sla_breaches : List SLARow
  bottlenecks : List BNRow
  deriving DecidableEq, Repr

/-- The anomaly-result counts consumed by `generate_alerts`. -/
structure AnomCounts where
  total_latency_spikes : ℕ
  total_error_spikes : ℕ
  deriving DecidableEq, Repr

/-- The risk-summary count consumed by `generate_alerts`. -/
structure RiskCounts where
  critical_users : ℕ
  deriving DecidableEq, Repr

/-- One alert record (`src/alerts/alert_engine.py`).  The free-text
`details` field and the wall-clock `timestamp` are not modelled. -/
structure Alert where
  id : String
  title : String
  description : String
  severity : String
  category : String
  source : String
  deriving DecidableEq, Repr

/-- Python `f"{n:04d}"`: decimal, zero-padded to 4 digits. -/
def pad4 (n : ℕ) : String := String.mk (List.replicate (4 - (toString n).length) '0') ++ toString n

/-- Append one alert whose id suffix is `len(alerts) + 1` — the source
interpolates the CURRENT length of the global alert list into every id. -/
def pushAlert (acc : List Alert) (mk : ℕ → Alert) : List Alert := acc ++ [mk (acc.length + 1)]

def bfAlert (r : BFRow) (n : ℕ) : Alert :=
  { id := "SEC-BF-" ++ pad4 n
    title := "Brute Force Attack Detected"
    description := "IP " ++ toString r.ip_address ++ " made " ++
      toString r.attempt_count ++ " failed login attempts."
    severity := r.severity
    category := "Security"
    source := "security_engine" }

def csAlert (r : CSRow) (n : ℕ) : Alert :=
  { id := "SEC-CS-" ++ pad4 n
    title := "Credential Stuffing Pattern"
    description := "IP " ++ toString r.ip_address ++ " targeted " ++
      toString r.unique_users_targeted ++ " unique accounts."
    severity := "CRITICAL"
    category := "Security"
    source := "security_engine" }

def ipAlert (k : ℕ) (n : ℕ) : Alert :=
  { id := "SEC-IP-" ++ pad4 n
    title := "High-Risk IPs Detected"
    description := toString k ++ " IP addresses flagged with elevated risk scores."
    severity := "WARNING"
    category := "Security"
    source := "ip_reputation" }

def slaAlert (r : SLARow) (n : ℕ) : Alert :=
  { id := "PERF-SLA-" ++ pad4 n
    title := "SLA Breach: " ++ r.service
    description := r.breach_details
    severity := r.severity
    category := "Performance"
    source := "sla_monitor" }

def bnAlert (r : BNRow) (n : ℕ) : Alert :=
  { id := "PERF-BN-" ++ pad4 n
    title := "Bottleneck: " ++ r.service
    description := r.detail
    severity := r.severity
    category := "Performance"
    source := "bottleneck_detector" }

def latAlert (k : ℕ) (n : ℕ) : Alert :=
  { id := "ANOM-LAT-" ++ pad4 n
    title := "Latency Anomalies Detected"
    description := toString k ++ " time periods with abnormal latency patterns."
    severity := if k < 5 then "WARNING" else "CRITICAL"
    category := "Anomaly"
    source := "anomaly_engine" }

def errAlert (k : ℕ) (n : ℕ) : Alert :=
  { id := "ANOM-ERR-" ++ pad4 n
    title := "Error Rate Anomalies"
    description := toString k ++ " time periods with unusual error rate spikes."
    severity := if k > 3 then "CRITICAL" else "WARNING"
    category := "Anomaly"
    source := "anomaly_engine" }

def riskAlert (k : ℕ) (n : ℕ) : Alert :=
  { id := "RISK-USR-" ++ pad4 n
    title := "Critical-Risk Users Identified"
    description := toString k ++ " user(s) with risk scores above 75."
    severity := "CRITICAL"
    category := "Risk"
    source := "risk_scoring" }

/-- The security section of `generate_alerts` (runs first, on the empty
alert list). -/
def secAlertBlock (sec : Option SecResults) : List Alert :=
  match sec with
  | none => []
  | some s =>
    let b1 := s.brute_force.foldl (fun acc r => pushAlert acc (bfAlert r)) []
    let b2 := s.credential_stuffing.foldl (fun acc r => pushAlert acc (csAlert r)) b1
    if s.high_risk_ips > 0 then pushAlert b2 (ipAlert s.high_risk_ips) else b2

/-- The performance section of `generate_alerts`. -/
def perfAlertBlock (perf : Option PerfResults) (acc : List Alert) : List Alert :=
  match perf with
  | none => acc
  | some p =>
    let c1 := p.sla_breaches.foldl (fun acc r => pushAlert acc (slaAlert r)) acc
    p.bottlenecks.foldl (fun acc r => pushAlert acc (bnAlert r)) c1

/-- The anomaly section of `generate_alerts`. -/
def anomAlertBlock (anom : Option AnomCounts) (acc : List Alert) : List Alert :=
  match anom with
  | none => acc
  | some a =>
    let d1 := if a.total_latency_spikes > 0 then
      pushAlert acc (latAlert a.total_latency_spikes) else acc
    if a.total_error_spikes > 0 then pushAlert d1 (errAlert a.total_error_spikes) else d1

/-- The risk section of `generate_alerts`. -/
def riskAlertBlock (risk : Option RiskCounts) (acc : List Alert) : List Alert :=
  match risk with
  | none => acc
  | some r => if r.critical_users > 0 then pushAlert acc (riskAlert r.critical_users) else acc

/-- The alert list of `generate_alerts` before the final severity sort, in
insertion order: security → performance → anomaly → risk. -/
def buildAlerts (sec : Option SecResults) (perf : Option PerfResults)
    (anom : Option AnomCounts) (risk : Option RiskCounts) : List Alert :=
  riskAlertBlock risk (anomAlertBlock anom (perfAlertBlock perf (secAlertBlock sec)))

/-- The final severity sort key (`severity_order.get(x, 3)`). -/
def sevOrd (s : String) : ℕ :=
  if s = "CRITICAL" then 0 else if s = "WARNING" then 1 else if s = "INFO" then 2 else 3

/-- `generate_alerts` (`src/alerts/alert_engine.py`): build all alerts in
insertion order, then stable-sort by severity (Python `list.sort`). -/
def generate_alerts (sec : Option SecResults) (perf : Option PerfResults)
    (anom : Option AnomCounts) (risk : Option RiskCounts) : List Alert :=
  stableSort (fun a b => sevOrd a.severity ≤ sevOrd b.severity) (buildAlerts sec perf anom risk)

/-! Concrete inputs used by the witnesses and counterexamples below. -/

/-- A fully populated column set. -/
def colsAll : Cols := ⟨true, true, true, true, true, true, true, true, true⟩

/-- Columns with `is_failure` absent (everything else present). -/
def colsNoFail : Cols := ⟨true, true, true, true, true, true, false, true, true⟩

/-- A failed login event from ip 9 at minute `t` by user `u`. -/
def loginFail (t u : ℕ) : Event :=
  { timestamp := t, user_id := u, ip_address := 9, endpoint := "/login",
    country := 7, session_id := 1, is_failure := true, latency_ms := 100, hour_bucket := 0 }

/-- Five failures by user 1 in minutes 0–4 and one failure by user 2 at
exactly minute 10 — the right edge of the first 10-minute bucket. -/
def dfEdge : Frame :=
  ⟨colsAll, [loginFail 0 1, loginFail 1 1, loginFail 2 1, loginFail 3 1,
             loginFail 4 1, loginFail 10 2]⟩

/-- The single brute-force record `detect_brute_force` emits on `dfEdge`. -/
def bfEdgeRow : BFRow :=
  { ip_address := 9, timestamp := 0, attempt_count := 5, targeted_users := [1, 2],
    severity := "WARNING", country := some 7, mitre_technique := "T1110",
    mitre_name := "Brute Force" }

/-- An event in hour bucket `b` with the given failure flag (all other
columns constant). -/
def bucketEvent (b : ℕ) (f : Bool) : Event :=
  { timestamp := 0, user_id := 0, ip_address := 0, endpoint := "", country := 0,
    session_id := 0, is_failure := f, latency_ms := 0, hour_bucket := b }

/-- Nine hourly buckets of two events each: buckets 0–7 at a 50% error
rate, bucket 8 at 0%.  The rolling z-score of bucket 8 is
(0 − 400/9) / (50/3) = −8/3 < −2.5. -/
def dfDrop : Frame :=
  ⟨colsAll, (List.range 8).flatMap (fun b => [bucketEvent b true, bucketEvent b false]) ++
            [bucketEvent 8 false, bucketEvent 8 false]⟩

/-- An event by user 1 (session 1, ip 3) from country `c`. -/
def userOneEvent (c : ℕ) (f : Bool) : Event :=
  { timestamp := 0, user_id := 1, ip_address := 3, endpoint := "", country := c,
    session_id := 1, is_failure := f, latency_ms := 0, hour_bucket := 0 }

/-- One user with 5 requests, 4 of them failures, from 5 distinct
countries, all in session 1. -/
def dfHigh : Frame :=
  ⟨colsAll, [userOneEvent 10 true, userOneEvent 20 true, userOneEvent 30 true,
             userOneEvent 40 true, userOneEvent 50 false]⟩

/-- ML signals for `dfHigh`: session 1 maximally anomalous (score −1) and
user 1 in a "Suspicious" cluster, pushing the composite to 72.0. -/
def mlHigh : MLResults :=
  { isolation_forest := some ⟨true, [⟨1, -1⟩]⟩,
    kmeans := some ⟨true, [⟨1, "Suspicious Users"⟩]⟩ }

/-- An event by user `u` in session `s` (no failures). -/
def sessionEvent (u s : ℕ) : Event :=
  { timestamp := 0, user_id := u, ip_address := 0, endpoint := "", country := 0,
    session_id := s, is_failure := false, latency_ms := 0, hour_bucket := 0 }

/-- Two users in two sessions. -/
def dfTwo : Frame := ⟨colsAll, [sessionEvent 1 1, sessionEvent 2 2]⟩

/-- An isolation-forest signal covering session 1 only, so the join yields
no anomaly score for user 2. -/
def mlPartial : MLResults :=
  { isolation_forest := some ⟨true, [⟨1, 1⟩]⟩, kmeans := none }

/-- A brute-force detection used to feed the alert generator. -/
def bfFeedRow : BFRow :=
  { ip_address := 9, timestamp := 0, attempt_count := 10, targeted_users := [1],
    severity := "CRITICAL", country := some 7, mitre_technique := "T1110",
    mitre_name := "Brute Force" }

/-- A credential-stuffing detection used to feed the alert generator. -/
def csFeedRow : CSRow :=
  { ip_address := 9, timestamp := 0, unique_users_targeted := 4, total_attempts := 6,
    severity := "CRITICAL", country := some 7, mitre_technique := "T1110.004",
    mitre_name := "Credential Stuffing" }

/-- A security results bundle with one brute-force and one
credential-stuffing detection (both CRITICAL). -/
def secTwoDetections : SecResults :=
  { brute_force := [bfFeedRow], credential_stuffing := [csFeedRow],
    ip_reputation := [], geo_anomalies := [], mitre_mapping := [],
    risk_index := 15, total_threats := 2, high_risk_ips := 0, failure_rate := 0 }

/-- Three failures from ip 9 by three distinct users within 5 minutes:
one credential-stuffing detection at the default threshold 3. -/
def dfStuff : Frame := ⟨colsAll, [loginFail 0 1, loginFail 1 2, loginFail 2 3]⟩

/-- The record `detect_credential_stuffing` emits on `dfStuff`. -/
def csStuffRow : CSRow :=
  { ip_address := 9, timestamp := 0, unique_users_targeted := 3, total_attempts := 3,
    severity := "CRITICAL", country := some 7, mitre_technique := "T1110.004",
    mitre_name := "Credential Stuffing" }

/-- The empty event table with every column present. -/
def dfEmpty : Frame := ⟨colsAll, []⟩

/-- Two latency buckets; used to exercise the first-bucket property. -/
def dfTwoBuckets : Frame :=
  ⟨colsAll, [{ bucketEvent 0 false with latency_ms := 100 },
             { bucketEvent 5 false with latency_ms := 900 }]⟩

/-- The id prefixes of the alert generator. -/
def alertPrefixes : List String :=
  ["SEC-BF-", "SEC-CS-", "SEC-IP-", "PERF-SLA-", "PERF-BN-", "ANOM-LAT-",
   "ANOM-ERR-", "RISK-USR-"]

def defaultAlert : Alert := ⟨"", "", "", "", "", ""⟩

def defaultSpikeRow : SpikeRow :=
  { bucket := 0, avg_value := 0, var_value := none, count := 0, zdev := 0,
    zvar := 1, is_spike := false, spike_direction := "NORMAL" }

def defaultErrRow : ErrRow :=
  { bucket := 0, total := 0, errors := 0, error_rate := 0, zdev := 0, zvar := 1,
    is_spike := false }

/-- Position-indexed id property of an alert list: the alert at 0-based
position `i` has id `prefix ++ pad4 (i+1)` for one of the fixed source
prefixes — i.e. the numeric suffix is the 1-based GLOBAL position of the
alert in insertion order. -/
def globallyNumbered (l : List Alert) : Prop :=
  ∀ i, i < l.length → ∃ p, p ∈ alertPrefixes ∧ (l.getD i defaultAlert).id = p ++ pad4 (i + 1)

/-- The risk record `calculate_user_risk_scores` produces on `dfHigh` with
`mlHigh`: composite 72.0, tiered "High" by the source's 75-bin. -/
def uHighRow : URow :=
  { user_id := 1, total_requests := 5, failure_rate := 4/5, unique_ips := 1,
    unique_countries := 5, avg_latency := 0, score_failure := 80,
    score_anomaly := 100, score_geo := 100, score_cluster := 80,
    score_volume := 0, score_ip_rep := 0, risk_score := 72, risk_tier := "High" }

/-- The risk record of user 2 on `dfTwo` with `mlPartial`: the ML signal is
present but joins no anomaly score for user 2, so its anomaly component is
the fillna-transformed 50, not 0. -/
def uTwoRowB : URow :=
  { user_id := 2, total_requests := 1, failure_rate := 0, unique_ips := 1,
    unique_countries := 1, avg_latency := 0, score_failure := 0,
    score_anomaly := 50, score_geo := 0, score_cluster := 0,
    score_volume := 0, score_ip_rep := 0, risk_score := 25/2, risk_tier := "Low" }

/-- The risk record of user 1 on `dfTwo` with `mlPartial` (anomaly score 1
joins, transforming to 0). -/
def uTwoRowA : URow :=
  { user_id := 1, total_requests := 1, failure_rate := 0, unique_ips := 1,
    unique_countries := 1, avg_latency := 0, score_failure := 0,
    score_anomaly := 0, score_geo := 0, score_cluster := 0,
    score_volume := 0, score_ip_rep := 0, risk_score := 0, risk_tier := "Low" }

/-! Helper lemmas. -/

theorem zGtB_eq_false_of_zLtNegB {a t s2 : ℚ} (ht : 0 ≤ t)
    (h : zLtNegB a t s2 = true) : zGtB a t s2 = false := by
  unfold zLtNegB at h
  unfold zGtB
  by_cases ha : a < 0
  · have h1 : ¬ 0 < a := by linarith
    simp [h1, not_lt.mpr ht]
  · simp [ha, not_lt.mpr ht] at h

theorem zAbsGtB_of_zGtB {a t s2 : ℚ} (ht : 0 ≤ t)
    (h : zGtB a t s2 = true) : zAbsGtB a t s2 = true := by
  unfold zGtB at h
  unfold zAbsGtB
  by_cases ha : 0 < a
  · simp only [ha, if_true] at h
    by_cases htp : 0 < t
    · simp only [htp, if_true] at h
      simpa [not_lt.mpr ht] using h
    · have ht0 : t = 0 := le_antisymm (not_lt.mp htp) ht
      subst ht0
      simp only [not_lt.mpr ht, if_false, decide_eq_true_eq]
      nlinarith
  · simp [ha, not_lt.mpr ht] at h

/-! C3: spike flagging of the error-rate series. -/

/-- C3, corrected.  In `detect_error_rate_spikes` a bucket is flagged iff
its rolling z-score exceeds the threshold in the POSITIVE direction only
(`zscore > threshold`, not `|zscore| > threshold`): every returned bucket's
flag equals the one-sided test, a bucket with `z < −threshold` is never
flagged, and every flagged bucket does satisfy `|z| > threshold`. -/
theorem c3_error_rate_spike_one_sided (cfg : MLConfig) (df : Frame)
    (ht : 0 ≤ cfg.zscore_threshold) :
    ∀ r ∈ detect_error_rate_spikes cfg df,
      r.is_spike = zGtB r.zdev cfg.zscore_threshold r.zvar ∧
      (zLtNegB r.zdev cfg.zscore_threshold r.zvar = true → r.is_spike = false) ∧
      (r.is_spike = true → zAbsGtB r.zdev cfg.zscore_threshold r.zvar = true) := by
  intro r hr
  unfold detect_error_rate_spikes at hr
  split at hr
  · simp at hr
  · obtain ⟨i, _, rfl⟩ := List.mem_map.mp hr
    refine ⟨rfl, ?_, ?_⟩
    · intro hneg
      exact zGtB_eq_false_of_zLtNegB ht hneg
    · intro hsp
      exact zAbsGtB_of_zGtB ht hsp

theorem getD_mem_of_lt {α : Type} (l : List α) (i : ℕ) (d : α) (h : i < l.length) :
    l.getD i d ∈ l := by
  rw [List.getD_eq_getElem l d h]
  exact List.getElem_mem h

set_option maxRecDepth 100000 in
unseal Rat.add Rat.sub Rat.mul Rat.inv in
/-- C3, counterexample to the claim as stated: on `dfDrop` the last bucket
has z-score −8/3, so `|z| > 2.5` holds, yet the source does not flag it
(`is_spike = false`) because its test is one-sided. -/
theorem c3_counterexample :
    ((detect_error_rate_spikes defaultML dfDrop).map
      (fun r => (r.bucket, r.is_spike, zAbsGtB r.zdev defaultML.zscore_threshold r.zvar,
        zLtNegB r.zdev defaultML.zscore_threshold r.zvar))).getD 8 (0, true, false, false) =
      (8, false, true, true) := by
  decide

set_option maxRecDepth 100000 in
unseal Rat.add Rat.sub Rat.mul Rat.inv in
/-- C3 witness: the corrected theorem applied to `dfDrop` at its last
bucket. -/
theorem c3_witness :
    (0 : ℚ) ≤ defaultML.zscore_threshold ∧
    ((detect_error_rate_spikes defaultML dfDrop).getD 8 defaultErrRow).is_spike = false := by
  constructor
  · norm_num [defaultML]
  · have hmem : (detect_error_rate_spikes defaultML dfDrop).getD 8 defaultErrRow ∈
        detect_error_rate_spikes defaultML dfDrop := by
      apply getD_mem_of_lt
      decide
    have h := c3_error_rate_spike_one_sided defaultML dfDrop (by norm_num [defaultML]) _ hmem
    have hneg : zLtNegB ((detect_error_rate_spikes defaultML dfDrop).getD 8 defaultErrRow).zdev
        defaultML.zscore_threshold
        ((detect_error_rate_spikes defaultML dfDrop).getD 8 defaultErrRow).zvar = true := by
      decide
    exact h.2.1 hneg

/-! C5: the aggregate risk index of the security bundle. -/

/-- C5, confirmed.  The risk index of every successfully produced security
bundle equals `min(100, min(5B,30) + min(10C,30) + min(3G,20) + min(2H,20))`
for `B` brute-force detections, `C` credential-stuffing detections, `G`
geo-anomaly records, and `H` IPs at or above the high-risk reputation
threshold; consequently it lies in [0, 100]. -/
theorem c5_risk_index_formula (cfg : SecConfig) (df : Frame) (res : SecResults)
    (h : run_security_analysis cfg df = .ok res) :
    res.risk_index =
      min 100 (min (res.brute_force.length * 5) 30 +
        min (res.credential_stuffing.length * 10) 30 +
        min (res.geo_anomalies.length * 3) 20 +
        min ((res.ip_reputation.filter
          (fun r => r.reputation_score ≥ cfg.high_risk_score)).length * 2) 20) ∧
    res.risk_index ≤ 100 := by
  unfold run_security_analysis at h
  cases hbf : detect_brute_force cfg df with
  | error e => rw [hbf] at h; exact absurd h (by simp)
  | ok bf =>
    rw [hbf] at h
    cases hcs : detect_credential_stuffing cfg df with
    | error e => rw [hcs] at h; exact absurd h (by simp)
    | ok cs =>
      rw [hcs] at h
      cases hip : calculate_ip_reputation df with
      | error e => rw [hip] at h; exact absurd h (by simp)
      | ok ipRep =>
        rw [hip] at h
        simp only [Except.ok.injEq] at h
        subst h
        by_cases he : ipRep = []
        · subst he
          simp only [List.filter_nil, List.length_nil]
          simp
          omega
        · simp only [he, ne_eq, not_false_eq_true, if_true, ite_true]
          simp
          omega

set_option maxRecDepth 100000 in
unseal Rat.add Rat.sub Rat.mul Rat.inv in
/-- C5 witness: the theorem applied to the empty event table, whose bundle
has risk index 0. -/
theorem c5_witness :
    (run_security_analysis defaultSec dfEmpty =
      .ok ⟨[], [], [], [], [], 0, 0, 0, 0⟩) ∧
    (⟨[], [], [], [], [], 0, 0, 0, 0⟩ : SecResults).risk_index ≤ 100 := by
  refine ⟨by decide, ?_⟩
  exact (c5_risk_index_formula defaultSec dfEmpty _ (by decide)).2

/-! C6: detectors degrade to empty results on missing guarded columns, but
an absent `is_failure` column raises. -/

/-- C6, corrected.  Each detector returns an empty result when the columns
it GUARDS are absent (timestamp/ip_address for brute force, plus user_id
for credential stuffing, ip_address for IP reputation, user_id/country for
geo anomalies, the metric and time columns for the spike detectors) — but
the `is_failure` column is read unguarded, so its absence raises a KeyError
in the brute-force, credential-stuffing and IP-reputation detectors instead
of yielding an empty result. -/
theorem c6_missing_columns (cfgS : SecConfig) (cfgM : MLConfig) (df : Frame) :
    ((¬df.cols.timestamp ∨ ¬df.cols.ip_address) → detect_brute_force cfgS df = .ok []) ∧
    ((¬df.cols.timestamp ∨ ¬df.cols.ip_address ∨ ¬df.cols.user_id) →
      detect_credential_stuffing cfgS df = .ok []) ∧
    (¬df.cols.ip_address → calculate_ip_reputation df = .ok []) ∧
    ((¬df.cols.user_id ∨ ¬df.cols.country) → detect_geo_anomalies df = []) ∧
    ((¬df.cols.latency_ms ∨ ¬df.cols.hour_bucket) → detect_spikes cfgM df = []) ∧
    ((¬df.cols.is_failure ∨ ¬df.cols.hour_bucket) → detect_error_rate_spikes cfgM df = []) ∧
    ((df.cols.timestamp ∧ df.cols.ip_address ∧ ¬df.cols.is_failure) →
      detect_brute_force cfgS df = .error "KeyError: is_failure") ∧
    ((df.cols.timestamp ∧ df.cols.ip_address ∧ df.cols.user_id ∧ ¬df.cols.is_failure) →
      detect_credential_stuffing cfgS df = .error "KeyError: is_failure") ∧
    ((df.cols.ip_address ∧ ¬df.cols.is_failure) →
      calculate_ip_reputation df = .error "KeyError: is_failure") := by
  refine ⟨?_, ?_, ?_, ?_, ?_, ?_, ?_, ?_, ?_⟩
  · intro h
    unfold detect_brute_force
    rw [if_pos h]
  · intro h
    unfold detect_credential_stuffing
    rw [if_pos h]
  · intro h
    unfold calculate_ip_reputation
    rw [if_pos h]
  · intro h
    unfold detect_geo_anomalies
    rw [if_pos h]
  · intro h
    unfold detect_spikes
    rw [if_pos h]
  · intro h
    unfold detect_error_rate_spikes
    rw [if_pos h]
  · rintro ⟨h1, h2, h3⟩
    unfold detect_brute_force
    rw [if_neg (by simp [h1, h2]), if_pos h3]
  · rintro ⟨h1, h2, h3, h4⟩
    unfold detect_credential_stuffing
    rw [if_neg (by simp [h1, h2, h3]), if_pos h4]
  · rintro ⟨h1, h2⟩
    unfold calculate_ip_reputation
    rw [if_neg (by simp [h1]), if_pos h2]

/-- C6, counterexample to the claim as stated: a table that has timestamp
and ip_address but lacks `is_failure` makes the brute-force detector raise
(return an error) instead of returning an empty result set. -/
theorem c6_counterexample :
    detect_brute_force defaultSec ⟨colsNoFail, [loginFail 0 1]⟩ =
      .error "KeyError: is_failure" := by
  decide

/-- C6 witness: the corrected theorem applied to concrete frames with the
relevant columns removed. -/
theorem c6_witness :
    detect_brute_force defaultSec ⟨{ colsAll with timestamp := false }, [loginFail 0 1]⟩ =
      .ok [] ∧
    detect_credential_stuffing defaultSec ⟨{ colsAll with user_id := false }, [loginFail 0 1]⟩ =
      .ok [] ∧
    calculate_ip_reputation ⟨{ colsAll with ip_address := false }, [loginFail 0 1]⟩ = .ok [] ∧
    detect_geo_anomalies ⟨{ colsAll with country := false }, [loginFail 0 1]⟩ = [] ∧
    detect_spikes defaultML ⟨{ colsAll with latency_ms := false }, [loginFail 0 1]⟩ = [] ∧
    detect_error_rate_spikes defaultML ⟨{ colsAll with hour_bucket := false }, [loginFail 0 1]⟩
      = [] ∧
    detect_brute_force defaultSec ⟨colsNoFail, [loginFail 0 1]⟩ =
      .error "KeyError: is_failure" ∧
    detect_credential_stuffing defaultSec ⟨colsNoFail, [loginFail 0 1]⟩ =
      .error "KeyError: is_failure" ∧
    calculate_ip_reputation ⟨colsNoFail, [loginFail 0 1]⟩ =
      .error "KeyError: is_failure" := by
  refine ⟨?_, ?_, ?_, ?_, ?_, ?_, ?_, ?_, ?_⟩
  · exact (c6_missing_columns defaultSec defaultML _).1 (Or.inl (by decide))
  · exact (c6_missing_columns defaultSec defaultML _).2.1 (Or.inr (Or.inr (by decide)))
  · exact (c6_missing_columns defaultSec defaultML _).2.2.1 (by decide)
  · exact (c6_missing_columns defaultSec defaultML _).2.2.2.1 (Or.inr (by decide))
  · exact (c6_missing_columns defaultSec defaultML _).2.2.2.2.1 (Or.inl (by decide))
  · exact (c6_missing_columns defaultSec defaultML _).2.2.2.2.2.1 (Or.inr (by decide))
  · exact (c6_missing_columns defaultSec defaultML _).2.2.2.2.2.2.1
      ⟨by decide, by decide, by decide⟩
  · exact (c6_missing_columns defaultSec defaultML _).2.2.2.2.2.2.2.1
      ⟨by decide, by decide, by decide, by decide⟩
  · exact (c6_missing_columns defaultSec defaultML _).2.2.2.2.2.2.2.2
      ⟨by decide, by decide⟩

theorem mem_sortedInsert {α : Type} (le : α → α → Bool) (x a : α) (l : List α) :
    a ∈ sortedInsert le x l ↔ a = x ∨ a ∈ l := by
  induction l with
  | nil => simp [sortedInsert]
  | cons y ys ih =>
    simp only [sortedInsert]
    split
    · simp [List.mem_cons]
    · simp only [List.mem_cons, ih]
      tauto

theorem mem_stableSort {α : Type} (le : α → α → Bool) (a : α) (l : List α) :
    a ∈ stableSort le l ↔ a ∈ l := by
  induction l with
  | nil => simp [stableSort]
  | cons x xs ih => simp [stableSort, mem_sortedInsert, ih, List.mem_cons]

theorem sortedKeys_ne_nil (key : Event → ℕ) (rows : List Event) (h : rows ≠ []) :
    sortedKeys key rows ≠ [] := by
  obtain ⟨e, he⟩ := List.exists_mem_of_ne_nil rows h
  have : key e ∈ sortedKeys key rows := by
    unfold sortedKeys
    rw [List.mem_dedup, mem_stableSort]
    exact List.mem_map_of_mem key he
  exact List.ne_nil_of_mem this

/-! C10: the first bucket of any metric series is never flagged. -/

theorem spikeRowAt_zero (cfg : MLConfig) (stats : List (ℕ × List ℚ))
    (hne : stats ≠ []) (hw : 0 < cfg.zscore_window) (ht : 0 < cfg.zscore_threshold) :
    (spikeRowAt cfg stats 0).zdev = 0 ∧ (spikeRowAt cfg stats 0).zvar = 1 ∧
    (spikeRowAt cfg stats 0).is_spike = false := by
  have havne : stats.map (fun p => meanQ p.2) ≠ [] := by
    simpa using hne
  obtain ⟨a, tl, hat⟩ := List.exists_cons_of_ne_nil havne
  have hwin : rwindow cfg.zscore_window (stats.map (fun p => meanQ p.2)) 0 = [a] := by
    unfold rwindow
    rw [Nat.sub_eq_zero_of_le hw, hat]
    rfl
  have hget0 : (stats.map (fun p => meanQ p.2)).getD 0 0 = a := by rw [hat]; rfl
  have hmean : rollingMean cfg.zscore_window (stats.map (fun p => meanQ p.2)) 0 = a := by
    unfold rollingMean
    rw [hwin]
    unfold meanQ
    simp
  have hvar : rollingStdSq cfg.zscore_window (stats.map (fun p => meanQ p.2)) 0 = 1 := by
    unfold rollingStdSq
    rw [hwin]
    unfold stdSqOf
    simp
  have hdev : (stats.map (fun p => meanQ p.2)).getD 0 0 -
      rollingMean cfg.zscore_window (stats.map (fun p => meanQ p.2)) 0 = 0 := by
    rw [hmean, hget0, sub_self]
  refine ⟨?_, ?_, ?_⟩
  · show (stats.map (fun p => meanQ p.2)).getD 0 0 -
      rollingMean cfg.zscore_window (stats.map (fun p => meanQ p.2)) 0 = 0
    exact hdev
  · exact hvar
  · show zAbsGtB ((stats.map (fun p => meanQ p.2)).getD 0 0 -
      rollingMean cfg.zscore_window (stats.map (fun p => meanQ p.2)) 0)
      cfg.zscore_threshold
      (rollingStdSq cfg.zscore_window (stats.map (fun p => meanQ p.2)) 0) = false
    rw [hdev, hvar]
    unfold zAbsGtB
    rw [if_neg (not_lt.mpr (le_of_lt ht))]
    simp only [decide_eq_false_iff_not, not_lt]
    nlinarith

/-- C10, confirmed.  On any nonempty event table (and positive window and
threshold, as the pandas rolling window and the configuration require), the
first row of the spike-detection time series has rolling-mean deviation 0
(its single-observation rolling mean is its own value), rolling std
replaced by 1 — hence z-score exactly 0 — and `is_spike = false`. -/
theorem c10_first_bucket_never_spike (cfg : MLConfig) (df : Frame)
    (hrows : df.rows ≠ []) (hw : 0 < cfg.zscore_window) (ht : 0 < cfg.zscore_threshold) :
    spikeTimeSeries cfg df ≠ [] ∧
    ((spikeTimeSeries cfg df).getD 0 defaultSpikeRow).zdev = 0 ∧
    ((spikeTimeSeries cfg df).getD 0 defaultSpikeRow).zvar = 1 ∧
    ((spikeTimeSeries cfg df).getD 0 defaultSpikeRow).is_spike = false := by
  have hkeys := sortedKeys_ne_nil (·.hour_bucket) df.rows hrows
  have hstats : bucketLatencies df ≠ [] := by
    unfold bucketLatencies
    simpa using hkeys
  have hlen : 0 < (bucketLatencies df).length := List.length_pos.mpr hstats
  have hne : spikeTimeSeries cfg df ≠ [] := by
    unfold spikeTimeSeries
    simp only [ne_eq, List.map_eq_nil_iff, List.range_eq_nil]
    omega
  have hdlen : 0 < (spikeTimeSeries cfg df).length := List.length_pos.mpr hne
  have hgetel : (spikeTimeSeries cfg df).getD 0 defaultSpikeRow =
      spikeRowAt cfg (bucketLatencies df) 0 := by
    rw [List.getD_eq_getElem _ _ hdlen]
    unfold spikeTimeSeries
    rw [List.getElem_map, List.getElem_range]
  rw [hgetel]
  obtain ⟨h1, h2, h3⟩ := spikeRowAt_zero cfg (bucketLatencies df) hstats hw ht
  exact ⟨hne, h1, h2, h3⟩

set_option maxRecDepth 100000 in
unseal Rat.add Rat.sub Rat.mul Rat.inv in
/-- C10 witness: the theorem applied to a concrete two-bucket latency
series. -/
theorem c10_witness :
    dfTwoBuckets.rows ≠ [] ∧ 0 < defaultML.zscore_window ∧
    (0 : ℚ) < defaultML.zscore_threshold ∧
    ((spikeTimeSeries defaultML dfTwoBuckets).getD 0 defaultSpikeRow).is_spike = false :=
  ⟨by decide, by decide, by norm_num [defaultML],
   (c10_first_bucket_never_spike defaultML dfTwoBuckets (by decide) (by decide)
     (by norm_num [defaultML])).2.2.2⟩

/-! C4 / C7 / C8: structure of the brute-force and credential-stuffing
outputs. -/

theorem detect_brute_force_mem (cfg : SecConfig) (df : Frame) (recs : List BFRow)
    (h : detect_brute_force cfg df = .ok recs) (r : BFRow) (hr : r ∈ recs) :
    ∃ ip ts, ts ∈ bfBuckets cfg.brute_force_window_min (bfGroup (bfFailures df) ip) ∧
      cfg.brute_force_threshold ≤
        bfBucketCount cfg.brute_force_window_min (bfGroup (bfFailures df) ip) ts ∧
      r = bfRecordAt cfg df.cols (bfGroup (bfFailures df) ip) ip ts := by
  unfold detect_brute_force at h
  split at h
  · simp only [Except.ok.injEq] at h
    subst h
    simp at hr
  · split at h
    · simp at h
    · dsimp only at h
      split at h
      · simp only [Except.ok.injEq] at h
        subst h
        simp at hr
      · simp only [Except.ok.injEq] at h
        subst h
        obtain ⟨ip, _, hmem⟩ := List.mem_flatMap.mp hr
        obtain ⟨ts, hts, hsome⟩ := List.mem_filterMap.mp hmem
        refine ⟨ip, ts, hts, ?_, ?_⟩
        · by_contra hc
          rw [if_pos (by omega)] at hsome
          exact Option.noConfusion hsome
        · split at hsome
          · exact Option.noConfusion hsome
          · exact (Option.some.injEq _ _ ▸ hsome).symm

/-- C4, corrected.  The window-scoped subset feeding the targeted-user
list and the country mode of every brute-force detection is the CLOSED
interval `[bucket_start, bucket_start + window]` — pandas label slicing
`group.loc[ts : ts + window]` includes both endpoints — so an event at
exactly `bucket_start + window` is included, not excluded. -/
theorem c4_window_subset_closed (cfg : SecConfig) (df : Frame) (recs : List BFRow)
    (h : detect_brute_force cfg df = .ok recs) :
    ∀ r ∈ recs,
      r.targeted_users = bfTargets df.cols cfg.brute_force_window_min
        (bfGroup (bfFailures df) r.ip_address) r.timestamp ∧
      r.country = bfCountry df.cols cfg.brute_force_window_min
        (bfGroup (bfFailures df) r.ip_address) r.timestamp := by
  intro r hr
  obtain ⟨ip, ts, _, _, hrec⟩ := detect_brute_force_mem cfg df recs h r hr
  subst hrec
  exact ⟨rfl, rfl⟩

/-- C4, counterexample to the claim as stated: on `dfEdge` the breaching
bucket starts at minute 0 with window 10, and user 2's only event sits at
exactly minute 10 = bucket_start + window; the claim's half-open subset
would make the targeted-user list `[1]`, but the source produces `[1, 2]`. -/
theorem c4_counterexample :
    detect_brute_force defaultSec dfEdge = .ok [bfEdgeRow] ∧
    bfEdgeRow.targeted_users = [1, 2] ∧
    (uniqueInOrder (((bfGroup (bfFailures dfEdge) 9).filter
      (fun e => 0 ≤ e.timestamp && e.timestamp < 0 + 10)).map (·.user_id))).take 5 = [1] := by
  refine ⟨by decide, by decide, by decide⟩

/-- C4 witness: the corrected theorem applied to `dfEdge`. -/
theorem c4_witness :
    bfEdgeRow.targeted_users = bfTargets dfEdge.cols defaultSec.brute_force_window_min
      (bfGroup (bfFailures dfEdge) bfEdgeRow.ip_address) bfEdgeRow.timestamp :=
  (c4_window_subset_closed defaultSec dfEdge [bfEdgeRow] (by decide) bfEdgeRow
    (by decide)).1

theorem bfBuckets_aligned (w : ℕ) (g : List Event) (ts : ℕ)
    (h : ts ∈ bfBuckets w g) : ts % w = 0 := by
  cases g with
  | nil => simp [bfBuckets] at h
  | cons e tl =>
    unfold bfBuckets at h
    obtain ⟨i, _, rfl⟩ := List.mem_range'.mp h
    rw [Nat.add_mul_mod_self_left]
    exact Nat.mul_mod_left _ w

/-- C7, confirmed.  Every security detector of the embedding is a pure
function of the event table and the configuration — the source consults
neither the wall clock nor any randomness — so two runs on the same input
coincide; moreover every emitted brute-force window start is aligned to a
multiple of the configured window length (pandas `resample` clock
alignment), not to the first event. -/
theorem c7_determinism (cfgS : SecConfig) (cfgM : MLConfig) (df : Frame) :
    detect_brute_force cfgS df = detect_brute_force cfgS df ∧
    detect_credential_stuffing cfgS df = detect_credential_stuffing cfgS df ∧
    calculate_ip_reputation df = calculate_ip_reputation df ∧
    detect_geo_anomalies df = detect_geo_anomalies df ∧
    detect_spikes cfgM df = detect_spikes cfgM df ∧
    run_security_analysis cfgS df = run_security_analysis cfgS df ∧
    (∀ recs, detect_brute_force cfgS df = .ok recs →
      ∀ r ∈ recs, r.timestamp % cfgS.brute_force_window_min = 0) := by
  refine ⟨rfl, rfl, rfl, rfl, rfl, rfl, ?_⟩
  intro recs h r hr
  obtain ⟨ip, ts, hts, _, hrec⟩ := detect_brute_force_mem cfgS df recs h r hr
  subst hrec
  exact bfBuckets_aligned _ _ _ hts

/-- C7 witness: the theorem applied to `dfEdge`, whose single detection
sits at the clock-aligned minute 0. -/
theorem c7_witness :
    detect_brute_force defaultSec dfEdge = detect_brute_force defaultSec dfEdge ∧
    bfEdgeRow.timestamp % defaultSec.brute_force_window_min = 0 :=
  ⟨(c7_determinism defaultSec defaultML dfEdge).1,
   (c7_determinism defaultSec defaultML dfEdge).2.2.2.2.2.2 [bfEdgeRow] (by decide)
     bfEdgeRow (by decide)⟩

theorem csDetectIp_fields (cfg : SecConfig) (cols : Cols) (g : List Event) (ip : ℕ)
    (r : CSRow) (h : csDetectIp cfg cols g ip = some r) :
    r.ip_address = ip ∧ r.severity = "CRITICAL" := by
  unfold csDetectIp at h
  obtain ⟨i, _, hf⟩ := List.exists_of_findSome?_eq_some h
  dsimp only at hf
  split at hf
  · obtain rfl := (Option.some.injEq _ _).mp hf
    exact ⟨rfl, rfl⟩
  · exact Option.noConfusion hf

theorem filterMap_map_key_nodup {β : Type} (f : ℕ → Option β) (key : β → ℕ)
    (l : List ℕ) (hl : l.Nodup) (hf : ∀ k r, f k = some r → key r = k) :
    ((l.filterMap f).map key).Nodup := by
  induction l with
  | nil => simp
  | cons k ks ih =>
    obtain ⟨hk, hks⟩ := List.nodup_cons.mp hl
    rw [List.filterMap_cons]
    cases hfk : f k with
    | none => exact ih hks
    | some b =>
      rw [List.map_cons, List.nodup_cons]
      refine ⟨?_, ih hks⟩
      intro hmem
      obtain ⟨r, hrmem, hkey⟩ := List.mem_map.mp hmem
      obtain ⟨k2, hk2, hfk2⟩ := List.mem_filterMap.mp hrmem
      have h1 := hf k2 r hfk2
      have h2 := hf k b hfk
      rw [h1, h2] at hkey
      exact hk (hkey ▸ hk2)

/-- C8, confirmed.  The credential-stuffing detector emits at most one
Detection Record per IP (the ip_address fields of a run's records are
pairwise distinct: the per-IP scan stops at the first qualifying start
point), and every record has severity CRITICAL. -/
theorem c8_one_per_ip_critical (cfg : SecConfig) (df : Frame) (recs : List CSRow)
    (h : detect_credential_stuffing cfg df = .ok recs) :
    (recs.map (fun r => r.ip_address)).Nodup ∧
    ∀ r ∈ recs, r.severity = "CRITICAL" := by
  unfold detect_credential_stuffing at h
  split at h
  · simp only [Except.ok.injEq] at h
    subst h
    simp
  · split at h
    · simp at h
    · dsimp only at h
      split at h
      · simp only [Except.ok.injEq] at h
        subst h
        simp
      · simp only [Except.ok.injEq] at h
        subst h
        constructor
        · apply filterMap_map_key_nodup _ _ _ (List.nodup_dedup _)
          intro k r hk
          exact (csDetectIp_fields cfg df.cols _ k r hk).1
        · intro r hr
          obtain ⟨ip, _, hsome⟩ := List.mem_filterMap.mp hr
          exact (csDetectIp_fields cfg df.cols _ ip r hsome).2

/-- C8 witness: the theorem applied to `dfStuff`, which produces exactly
one CRITICAL detection for ip 9. -/
theorem c8_witness :
    (([csStuffRow].map (fun r => r.ip_address)).Nodup) ∧
    csStuffRow.severity = "CRITICAL" :=
  ⟨(c8_one_per_ip_critical defaultSec dfStuff [csStuffRow] (by decide)).1,
   (c8_one_per_ip_critical defaultSec dfStuff [csStuffRow] (by decide)).2 csStuffRow
     (by decide)⟩

/-! C9: alert id numbering. -/

theorem getD_concat {α : Type} (l : List α) (x d : α) : (l ++ [x]).getD l.length d = x := by
  induction l with
  | nil => rfl
  | cons y ys ih => simp [ih]

theorem globallyNumbered_nil : globallyNumbered [] := by
  intro i hi
  simp at hi

theorem globallyNumbered_push (acc : List Alert) (mk : ℕ → Alert)
    (hacc : globallyNumbered acc)
    (hmk : ∃ p, p ∈ alertPrefixes ∧ ∀ n, (mk n).id = p ++ pad4 n) :
    globallyNumbered (pushAlert acc mk) := by
  intro i hi
  unfold pushAlert at hi ⊢
  rw [List.length_append, List.length_cons, List.length_nil] at hi
  by_cases hlt : i < acc.length
  · rw [List.getD_append _ _ _ _ hlt]
    exact hacc i hlt
  · have hieq : i = acc.length := by omega
    subst hieq
    obtain ⟨p, hp, hid⟩ := hmk
    rw [getD_concat]
    exact ⟨p, hp, hid _⟩

theorem globallyNumbered_foldl {ρ : Type} (mk : ρ → ℕ → Alert) (l : List ρ)
    (acc : List Alert) (hacc : globallyNumbered acc)
    (hmk : ∀ r, ∃ p, p ∈ alertPrefixes ∧ ∀ n, (mk r n).id = p ++ pad4 n) :
    globallyNumbered (l.foldl (fun a r => pushAlert a (mk r)) acc) := by
  induction l generalizing acc with
  | nil => exact hacc
  | cons r rs ih => exact ih _ (globallyNumbered_push _ _ hacc (hmk r))

theorem globallyNumbered_secAlertBlock (sec : Option SecResults) :
    globallyNumbered (secAlertBlock sec) := by
  cases sec with
  | none => exact globallyNumbered_nil
  | some s =>
    unfold secAlertBlock
    dsimp only
    have h1 := globallyNumbered_foldl bfAlert s.brute_force [] globallyNumbered_nil
      (fun r => ⟨"SEC-BF-", by decide, fun n => rfl⟩)
    have h2 := globallyNumbered_foldl csAlert s.credential_stuffing _ h1
      (fun r => ⟨"SEC-CS-", by decide, fun n => rfl⟩)
    split
    · exact globallyNumbered_push _ _ h2 ⟨"SEC-IP-", by decide, fun n => rfl⟩
    · exact h2

theorem globallyNumbered_perfAlertBlock (perf : Option PerfResults) (acc : List Alert)
    (hacc : globallyNumbered acc) : globallyNumbered (perfAlertBlock perf acc) := by
  cases perf with
  | none => exact hacc
  | some p =>
    unfold perfAlertBlock
    dsimp only
    have h1 := globallyNumbered_foldl slaAlert p.sla_breaches acc hacc
      (fun r => ⟨"PERF-SLA-", by decide, fun n => rfl⟩)
    exact globallyNumbered_foldl bnAlert p.bottlenecks _ h1
      (fun r => ⟨"PERF-BN-", by decide, fun n => rfl⟩)

theorem globallyNumbered_anomAlertBlock (anom : Option AnomCounts) (acc : List Alert)
    (hacc : globallyNumbered acc) : globallyNumbered (anomAlertBlock anom acc) := by
  cases anom with
  | none => exact hacc
  | some a =>
    unfold anomAlertBlock
    dsimp only
    have h1 : globallyNumbered (if a.total_latency_spikes > 0 then
        pushAlert acc (latAlert a.total_latency_spikes) else acc) := by
      split
      · exact globallyNumbered_push _ _ hacc ⟨"ANOM-LAT-", by decide, fun n => rfl⟩
      · exact hacc
    split
    · exact globallyNumbered_push _ _ h1 ⟨"ANOM-ERR-", by decide, fun n => rfl⟩
    · exact h1

theorem globallyNumbered_riskAlertBlock (risk : Option RiskCounts) (acc : List Alert)
    (hacc : globallyNumbered acc) : globallyNumbered (riskAlertBlock risk acc) := by
  cases risk with
  | none => exact hacc
  | some r =>
    unfold riskAlertBlock
    dsimp only
    split
    · exact globallyNumbered_push _ _ hacc ⟨"RISK-USR-", by decide, fun n => rfl⟩
    · exact hacc

/-- C9, corrected.  The numeric suffix of every generated alert id is the
alert's 1-based GLOBAL position in the insertion-ordered alert list — the
source interpolates `len(alerts) + 1` into each id — so numbering runs
across all source prefixes and does NOT restart at 1 per prefix. -/
theorem c9_alert_ids_globally_sequential (sec : Option SecResults)
    (perf : Option PerfResults) (anom : Option AnomCounts) (risk : Option RiskCounts) :
    ∀ i, i < (buildAlerts sec perf anom risk).length →
      ∃ p, p ∈ alertPrefixes ∧
        ((buildAlerts sec perf anom risk).getD i defaultAlert).id = p ++ pad4 (i + 1) :=
  globallyNumbered_riskAlertBlock risk _
    (globallyNumbered_anomAlertBlock anom _
      (globallyNumbered_perfAlertBlock perf _ (globallyNumbered_secAlertBlock sec)))

/-- C9, counterexample to the claim as stated: fed one brute-force and one
credential-stuffing detection, the generator produces ids `SEC-BF-0001`
and `SEC-CS-0002` — the single SEC-CS alert has suffix 2, not a
per-prefix-restarted 1. -/
theorem c9_counterexample :
    (generate_alerts (some secTwoDetections) none none none).map (fun a => a.id) =
      ["SEC-BF-0001", "SEC-CS-0002"] := by
  decide

/-- C9 witness: the corrected theorem applied at position 1 of the same
concrete input, yielding the suffix 0002 on the SEC-CS alert. -/
theorem c9_witness :
    1 < (buildAlerts (some secTwoDetections) none none none).length ∧
    ∃ p, p ∈ alertPrefixes ∧
      ((buildAlerts (some secTwoDetections) none none none).getD 1 defaultAlert).id =
        p ++ pad4 2 :=
  ⟨by decide,
   c9_alert_ids_globally_sequential (some secTwoDetections) none none none 1 (by decide)⟩

/-! C1: the tier bins of the per-user risk fusion. -/

theorem clipQ_nonneg (x : ℚ) : 0 ≤ clipQ 0 100 x := le_max_left _ _

theorem clipQ_le_hundred (x : ℚ) : clipQ 0 100 x ≤ 100 :=
  max_le (by norm_num) (min_le_right _ _)

theorem roundHalfEven_nonneg {x : ℚ} (h : 0 ≤ x) : 0 ≤ roundHalfEven x := by
  unfold roundHalfEven
  have hf : (0 : ℤ) ≤ ⌊x⌋ := Int.floor_nonneg.mpr h
  dsimp only
  split_ifs <;> omega

theorem roundHalfEven_le {x : ℚ} {B : ℤ} (h : x ≤ (B : ℚ)) : roundHalfEven x ≤ B := by
  unfold roundHalfEven
  have hfB : ⌊x⌋ ≤ B := by
    have := Int.floor_le_floor h
    rwa [Int.floor_intCast] at this
  have hfx : (⌊x⌋ : ℚ) ≤ x := Int.floor_le x
  dsimp only
  split_ifs with h1 h2 h3
  · exact hfB
  · have hlt : ⌊x⌋ < B := by
      by_contra hc
      have hBf : ⌊x⌋ = B := le_antisymm hfB (not_lt.mp hc)
      rw [hBf] at h2
      linarith
    omega
  · exact hfB
  · have hlt : ⌊x⌋ < B := by
      by_contra hc
      have hBf : ⌊x⌋ = B := le_antisymm hfB (not_lt.mp hc)
      push_neg at h1
      rw [hBf] at h1
      linarith
    omega

theorem roundTo_one_bounds {x : ℚ} (h0 : 0 ≤ x) (h1 : x ≤ 100) :
    0 ≤ roundTo 1 x ∧ roundTo 1 x ≤ 100 := by
  unfold roundTo
  have hlo : (0 : ℤ) ≤ roundHalfEven (x * 10 ^ 1) := by
    apply roundHalfEven_nonneg
    positivity
  have hhi : roundHalfEven (x * 10 ^ 1) ≤ (1000 : ℤ) := by
    apply roundHalfEven_le
    push_cast
    nlinarith
  constructor
  · apply div_nonneg _ (by positivity)
    exact_mod_cast hlo
  · rw [div_le_iff₀ (by positivity)]
    calc ((roundHalfEven (x * 10 ^ 1) : ℚ)) ≤ (1000 : ℚ) := by exact_mod_cast hhi
    _ = 100 * 10 ^ 1 := by norm_num

theorem tier75_critical {s : ℚ} (h1 : 75 < s) (h2 : s ≤ 100) : tier75 s = "Critical" := by
  unfold tier75
  rw [if_neg (by linarith), if_neg (by linarith), if_neg (by linarith),
    if_neg (by linarith), if_pos h2]

/-- C1, corrected.  The per-user risk tier is derived from the composite
score with `pd.cut` bins `(−1,25] (25,50] (50,75] (75,100]` — the 50/70
splits of the §4.3 IP-reputation tiers are NOT used — so a composite score
must exceed 75, not 70, to be tiered Critical; the composite always lies in
[0, 100], so the tier function is total on the produced records. -/
theorem c1_user_tier_bins (df : Frame) (sec : Option SecResults) (ml : Option MLResults)
    (recs : List URow) (h : calculate_user_risk_scores df sec ml = .ok recs) :
    ∀ r ∈ recs, r.risk_tier = tier75 r.risk_score ∧ 0 ≤ r.risk_score ∧
      r.risk_score ≤ 100 ∧ (75 < r.risk_score → r.risk_tier = "Critical") := by
  intro r hr
  unfold calculate_user_risk_scores at h
  split at h
  · simp only [Except.ok.injEq] at h
    subst h
    simp at hr
  · dsimp only at h
    split at h
    · simp at h
    · simp only [Except.ok.injEq] at h
      subst h
      rw [mem_stableSort] at hr
      obtain ⟨u, _, rfl⟩ := List.mem_map.mp hr
      have hb := roundTo_one_bounds (clipQ_nonneg
        (u.score_failure * (1/4) + u.score_anomaly * (1/4) + u.score_geo * (3/20) +
         u.score_cluster * (3/20) + u.score_volume * (1/10) + u.score_ip_rep * (1/10)))
        (clipQ_le_hundred _)
      refine ⟨rfl, hb.1, hb.2, ?_⟩
      intro h75
      exact tier75_critical h75 hb.2

set_option maxRecDepth 400000 in
unseal Rat.add Rat.sub Rat.mul Rat.inv in
/-- C1, counterexample to the claim as stated: on `dfHigh` with `mlHigh`
the single user's composite score is 72.0 — strictly greater than 70 — yet
its tier is "High", not the "Critical" the claimed §4.3 bins
`(50,70] (70,100]` would give. -/
theorem c1_counterexample :
    calculate_user_risk_scores dfHigh none (some mlHigh) = .ok [uHighRow] ∧
    (70 : ℚ) < uHighRow.risk_score ∧ uHighRow.risk_tier = "High" := by
  refine ⟨by decide, by decide, by decide⟩

set_option maxRecDepth 400000 in
unseal Rat.add Rat.sub Rat.mul Rat.inv in
/-- C1 witness: the corrected theorem applied to the concrete `dfHigh` run. -/
theorem c1_witness :
    uHighRow.risk_tier = tier75 uHighRow.risk_score ∧
    (75 < uHighRow.risk_score → uHighRow.risk_tier = "Critical") :=
  ⟨(c1_user_tier_bins dfHigh none (some mlHigh) [uHighRow] (by decide) uHighRow
     (by decide)).1,
   (c1_user_tier_bins dfHigh none (some mlHigh) [uHighRow] (by decide) uHighRow
     (by decide)).2.2.2⟩

/-! C2: the anomaly component of the per-user risk fusion. -/

theorem baseUsers_anomaly_zero (df : Frame) : ∀ u ∈ baseUsers df, u.score_anomaly = 0 := by
  intro u hu
  unfold baseUsers at hu
  obtain ⟨k, _, rfl⟩ := List.mem_map.mp hu
  rfl

theorem anomalyStage_prop (df : Frame) (ml : Option MLResults) (l : List URow)
    (hl : ∀ u ∈ l, u.score_anomaly = 0) :
    ∀ r ∈ anomalyStage df ml l,
      r.score_anomaly = (match activeIF df ml with
        | none => 0
        | some f => clipQ 0 100 ((0 - ((user_avg_anomaly df f r.user_id).getD 0)) * 50 + 50)) := by
  intro r hr
  unfold anomalyStage at hr
  cases hIF : activeIF df ml with
  | none =>
    rw [hIF] at hr
    exact hl r hr
  | some f =>
    rw [hIF] at hr
    obtain ⟨u, _, rfl⟩ := List.mem_map.mp hr
    rfl

theorem geoStage_pres (l : List URow) (r : URow) (hr : r ∈ geoStage l) :
    ∃ u ∈ l, r.score_anomaly = u.score_anomaly ∧ r.user_id = u.user_id := by
  obtain ⟨u, hu, rfl⟩ := List.mem_map.mp hr
  exact ⟨u, hu, rfl, rfl⟩

theorem volumeStage_pres (l : List URow) (r : URow) (hr : r ∈ volumeStage l) :
    ∃ u ∈ l, r.score_anomaly = u.score_anomaly ∧ r.user_id = u.user_id := by
  obtain ⟨u, hu, rfl⟩ := List.mem_map.mp hr
  exact ⟨u, hu, rfl, rfl⟩

theorem clusterStage_pres (ml : Option MLResults) (l : List URow) (r : URow)
    (hr : r ∈ clusterStage ml l) :
    ∃ u ∈ l, r.score_anomaly = u.score_anomaly ∧ r.user_id = u.user_id := by
  unfold clusterStage at hr
  cases hk : activeKM ml with
  | none =>
    rw [hk] at hr
    exact ⟨r, hr, rfl, rfl⟩
  | some k =>
    rw [hk] at hr
    obtain ⟨u, hu, hmem⟩ := List.mem_flatMap.mp hr
    have hmem2 : r ∈ (if k.rows.filter (fun r2 => r2.user_id = u.user_id) = [] then [u]
        else (k.rows.filter (fun r2 => r2.user_id = u.user_id)).map
          (fun r2 => { u with score_cluster := labelScore r2.cluster_label })) := hmem
    by_cases hms : k.rows.filter (fun r2 => r2.user_id = u.user_id) = []
    · rw [if_pos hms] at hmem2
      rw [List.mem_singleton] at hmem2
      subst hmem2
      exact ⟨_, hu, rfl, rfl⟩
    · rw [if_neg hms] at hmem2
      obtain ⟨m2, _, rfl⟩ := List.mem_map.mp hmem2
      exact ⟨u, hu, rfl, rfl⟩

theorem ipRepStage_pres (df : Frame) (sec : Option SecResults) (l l2 : List URow)
    (h : ipRepStage df sec l = .ok l2) (r : URow) (hr : r ∈ l2) :
    ∃ u ∈ l, r.score_anomaly = u.score_anomaly ∧ r.user_id = u.user_id := by
  unfold ipRepStage at h
  cases sec with
  | none =>
    simp only [Except.ok.injEq] at h
    subst h
    exact ⟨r, hr, rfl, rfl⟩
  | some s =>
    dsimp only at h
    by_cases hemp : s.ip_reputation = []
    · rw [if_pos hemp] at h
      simp only [Except.ok.injEq] at h
      subst h
      exact ⟨r, hr, rfl, rfl⟩
    · rw [if_neg hemp] at h
      by_cases hip : ¬df.cols.ip_address
      · rw [if_pos hip] at h
        exact absurd h (by simp)
      · rw [if_neg hip] at h
        simp only [Except.ok.injEq] at h
        subst h
        obtain ⟨u, hu, rfl⟩ := List.mem_map.mp hr
        exact ⟨u, hu, rfl, rfl⟩

/-- C2, corrected.  The anomaly component of every produced risk record is
0 exactly when the isolation-forest signal is inactive at TABLE level (no
ml_results, key absent, empty results frame, no session_id column, or no
anomaly_score column); when the signal is active, every user's component is
`clip((0 − a)·50 + 50)` where `a` is the user's joined average anomaly
score with missing joins filled as 0 — so a user the session→user join
yields NO anomaly score for gets component 50, not 0. -/
theorem c2_anomaly_component (df : Frame) (sec : Option SecResults)
    (ml : Option MLResults) (recs : List URow)
    (h : calculate_user_risk_scores df sec ml = .ok recs) :
    ∀ r ∈ recs,
      r.score_anomaly = (match activeIF df ml with
        | none => 0
        | some f =>
          clipQ 0 100 ((0 - ((user_avg_anomaly df f r.user_id).getD 0)) * 50 + 50)) := by
  intro r hr
  unfold calculate_user_risk_scores at h
  split at h
  · simp only [Except.ok.injEq] at h
    subst h
    simp at hr
  · dsimp only at h
    split at h
    · simp at h
    · rename_i u6 heq
      simp only [Except.ok.injEq] at h
      subst h
      rw [mem_stableSort] at hr
      obtain ⟨u6e, hu6, rfl⟩ := List.mem_map.mp hr
      obtain ⟨u5e, hu5, ha5, hi5⟩ := ipRepStage_pres df sec _ u6 heq u6e hu6
      obtain ⟨u4e, hu4, ha4, hi4⟩ := volumeStage_pres _ u5e hu5
      obtain ⟨u3e, hu3, ha3, hi3⟩ := clusterStage_pres ml _ u4e hu4
      obtain ⟨u2e, hu2, ha2, hi2⟩ := geoStage_pres _ u3e hu3
      have hbase : ∀ u ∈ (baseUsers df).map
          (fun u => { u with score_failure := clipQ 0 100 (u.failure_rate * 100) }),
          u.score_anomaly = 0 := by
        intro u hu
        obtain ⟨b, hb, rfl⟩ := List.mem_map.mp hu
        exact baseUsers_anomaly_zero df b hb
      have hq := anomalyStage_prop df ml _ hbase u2e hu2
      have hsa : (finalizeRisk u6e).score_anomaly = u2e.score_anomaly := by
        show u6e.score_anomaly = u2e.score_anomaly
        rw [ha5, ha4, ha3, ha2]
      have hui : (finalizeRisk u6e).user_id = u2e.user_id := by
        show u6e.user_id = u2e.user_id
        rw [hi5, hi4, hi3, hi2]
      rw [hsa, hui]
      exact hq

set_option maxRecDepth 400000 in
unseal Rat.add Rat.sub Rat.mul Rat.inv in
/-- C2, counterexample to the claim as stated: on `dfTwo` with `mlPartial`
the ML signal is supplied, but the session→user join yields no anomaly
score for user 2 — and user 2's anomaly component is 50, not the claimed 0
(the missing average is filled with 0 and then transformed). -/
theorem c2_counterexample :
    calculate_user_risk_scores dfTwo none (some mlPartial) = .ok [uTwoRowB, uTwoRowA] ∧
    uTwoRowB.user_id = 2 ∧ uTwoRowB.score_anomaly = 50 ∧
    user_avg_anomaly dfTwo ⟨true, [⟨1, 1⟩]⟩ 2 = none := by
  refine ⟨by decide, by decide, by decide, by decide⟩

set_option maxRecDepth 400000 in
unseal Rat.add Rat.sub Rat.mul Rat.inv in
/-- C2 witness: the corrected theorem applied to the `dfTwo` run, at the
record of user 2. -/
theorem c2_witness :
    uTwoRowB.score_anomaly = (match activeIF dfTwo (some mlPartial) with
      | none => 0
      | some f =>
        clipQ 0 100 ((0 - ((user_avg_anomaly dfTwo f uTwoRowB.user_id).getD 0)) * 50 + 50)) :=
  c2_anomaly_component dfTwo none (some mlPartial) [uTwoRowB, uTwoRowA] (by decide)
    uTwoRowB (by decide)
